import Mathlib

/-!
# Verification of the cross-tab core (`src/core.ts`)

Shallow embedding of the channel/transport layer of the `cross-tab`
library.  The embedding follows `src/core.ts`:

* the per-context identity (`getTabId`) is an opaque string passed to each
  operation as `localId`;
* `localStorage` is modelled as an association list from slot names to slot
  contents (`Store`), with shadowing insertion — only the first binding for
  a name is observable, which matches a string map;
* a `localStorage` slot holds either a plain string written by the
  persistence branch (`SlotVal.raw`) or the JSON serialization of a message
  envelope written by the fallback transport's `publish`
  (`SlotVal.envText`).  `JSON.parse` applied to a slot is modelled by
  `jsonParseMsg`: the JSON text of an envelope parses back to that envelope
  (the round-trip property of JSON on JSON-safe data), while a plain
  persisted string is modelled as not parsing to a well-formed envelope
  object — every reader of a parsed slot in the source guards with
  `msg && typeof msg === 'object' && msg.value !== undefined`, so any
  non-envelope parse result is treated identically to a parse failure;
* fallible platform primitives (`localStorage.setItem`/`getItem`,
  `postMessage`, a user `serialize`/`deserialize`, subscriber callbacks)
  are `Except Unit`-valued; each `try { ... } catch { ... }` of the source
  is a `tryCatch` in the embedding, and the public operations are
  themselves `Except Unit`-valued so that an uncaught failure would show up
  as an `.error` result;
* subscriber callbacks are identified by natural numbers; a callback
  behaviour map `cb : Nat → α → Except Unit Unit` says whether an
  invocation throws.  Operations return the list of performed invocations
  (callback id paired with the delivered value) as an observable trace.

JS `undefined` is `Option.none`; a TS value of type `T` lives in `α`.
-/

set_option autoImplicit false

namespace CrossTab

variable {α : Type}

/-- The three transport strategies selected by `createTransport`:
`noop` for non-browser contexts, `broadcast` for a successfully constructed
`BroadcastChannel`, `fallback` for the localStorage/storage-event path. -/
inductive Strategy where
  | noop
  | broadcast
  | fallback
deriving DecidableEq, Repr

/-- Strategy selection of `createTransport`: non-browser context gets the
no-op transport; otherwise `BroadcastChannel`, when present and when its
construction does not throw; otherwise the localStorage fallback. -/
def selectStrategy (isBrowser bcAvailable bcConstructionOk : Bool) : Strategy :=
  if !isBrowser then .noop
  else if bcAvailable && bcConstructionOk then .broadcast
  else .fallback

/-- The message envelope `{value, key, tabId, timestamp}`.  Fields that a
malformed inbound object may lack (`value`, `key`, `tabId`) are `Option`s,
with `none` standing for JS `undefined`. -/
structure Envelope (α : Type) where
  value : Option α
  key : Option String
  tabId : Option String
  timestamp : Nat
deriving DecidableEq, Repr

/-- An inbound raw message as seen by the dynamic shape checks of the
source: either not an object (includes `null` and primitives), or an
object read as an envelope shape. -/
inductive JSMsg (α : Type) where
  | nonObject
  | obj (e : Envelope α)
deriving DecidableEq, Repr

/-- The content of one `localStorage` slot: a plain string written by the
persistence branch, or the JSON text of an envelope written by the
fallback transport's `publish` (`JSON.stringify(message)`). -/
inductive SlotVal (α : Type) where
  | raw (s : String)
  | envText (e : Envelope α)
deriving DecidableEq, Repr

/-- Model of `JSON.parse` applied to a slot, followed by the source's object-shape view.
The JSON text of an envelope parses back to that envelope; a plain
persisted string is modelled as yielding no well-formed envelope (see the
module docstring). -/
def jsonParseMsg : SlotVal α → Option (JSMsg α)
  | .envText e => some (.obj e)
  | .raw _ => none

/-- Model of `localStorage`, as an association list from slot names to contents.
Insertion shadows: only the first binding for a name is observable. -/
abbrev Store (α : Type) : Type := List (String × SlotVal α)

/-- Read a slot (`localStorage.getItem`): first binding for the name, if any. -/
def Store.get : Store α → String → Option (SlotVal α)
  | [], _ => none
  | (k', v) :: rest, k => if k' = k then some v else Store.get rest k

/-- Write a slot (`localStorage.setItem`): bind the name, shadowing older bindings. -/
def Store.set (st : Store α) (k : String) (v : SlotVal α) : Store α :=
  (k, v) :: st

@[simp] theorem Store.get_set_self (st : Store α) (k : String) (v : SlotVal α) :
    Store.get (Store.set st k v) k = some v := by
  simp [Store.set, Store.get]

@[simp] theorem Store.get_set_ne (st : Store α) (k k' : String) (v : SlotVal α)
    (h : k ≠ k') : Store.get (Store.set st k v) k' = Store.get st k' := by
  simp [Store.set, Store.get, h]

/-- Model of `try { x } catch { fallback }` for an `Except Unit`-valued action whose
normal result is the new state. -/
def tryCatch {β : Type} (x : Except Unit β) (fallback : β) : β :=
  match x with
  | .ok b => b
  | .error _ => fallback

/-- A user `serialize` call: throws when the per-call fault flag is set. -/
def serializeE (throws : Bool) (ser : α → String) (v : α) : Except Unit String :=
  if throws then .error () else .ok (ser v)

/-- A `localStorage.setItem` call: on success the slot is bound, on a
quota/security failure the call throws and the store is unchanged. -/
def setItemE (ok : Bool) (st : Store α) (k : String) (sv : SlotVal α) :
    Except Unit (Store α) :=
  if ok then .ok (Store.set st k sv) else .error ()

/-- The per-call fault model: which fallible platform primitive throws
during one operation call. -/
structure Faults where
  serializeThrows : Bool := false
  persistSetThrows : Bool := false
  publishThrows : Bool := false
deriving DecidableEq, Repr

/-! ## Transport-level delivery paths -/

/-- The filter of the live delivery paths (`bc.onmessage` and the
storage-event handler): forward an inbound message to the local listeners
exactly when it is a well-formed object with a defined `value` and a
`tabId` different from the local identity. -/
def forwardGuard (localId : String) (m : JSMsg α) : Option (Envelope α) :=
  match m with
  | .nonObject => none
  | .obj e => if e.value.isSome ∧ e.tabId ≠ some localId then some e else none

/-- The fallback transport's storage-event handler: ignore events for other
slots or with no new value; otherwise `JSON.parse` the new value (`fault`
models the whole `try` block throwing) and apply the live filter. -/
def storageEventDeliver (localId physKey evKey : String)
    (newValue : Option (SlotVal α)) (fault : Bool) : Option (Envelope α) :=
  if evKey ≠ physKey then none
  else
    match newValue with
    | none => none
    | some sv =>
      if fault then none
      else
        match jsonParseMsg sv with
        | some (.obj e) =>
          if e.value.isSome ∧ e.tabId ≠ some localId then some e else none
        | _ => none

/-- The fallback transport's `subscribe`-time immediate synchronous read of
the stored slot: a well-formed stored envelope with a defined `value` is
delivered to the new listener.  The local identity is in scope in the
source (`getTabId`) but this path performs no identity check. -/
def fallbackSubscribeRead (localId : String) (st : Store α) (physKey : String)
    (fault : Bool) : Option (Envelope α) :=
  if fault then none
  else
    match Store.get st physKey with
    | none => none
    | some sv =>
      match jsonParseMsg sv with
      | some (.obj e) => if e.value.isSome then some e else none
      | _ => none

/-- Effect of `transport.publish` for an (already object-shaped) envelope, as it
affects durable storage: the no-op transport does nothing; the native
broadcast transport hands the envelope to `postMessage` (a throw is caught,
and storage is untouched either way); the fallback transport JSON-serializes
the envelope into the physical channel slot, a write failure being caught
and swallowed. -/
def publishStore (strat : Strategy) (isBrowser : Bool) (physKey : String)
    (f : Faults) (st : Store α) (e : Envelope α) : Store α :=
  match strat with
  | .noop => st
  | .broadcast => tryCatch (if f.publishThrows then .error () else .ok st) st
  | .fallback =>
    if isBrowser then tryCatch (setItemE (!f.publishThrows) st physKey (.envText e)) st
    else st

/-! ## Transport registry -/

/-- The transport registry: `transports` and `transportRefs` of the source
are updated in lockstep, so they are modelled as one association list from
physical channel names to reference counts (presence = a cached live
transport). -/
abbrev Reg : Type := List (String × Nat)

/-- Reference-count lookup (first binding). -/
def Reg.lookup : Reg → String → Option Nat
  | [], _ => none
  | (k', n) :: rest, k => if k' = k then some n else Reg.lookup rest k

/-- The reference count of a name, zero when absent (`refs.get(name) || 0`). -/
def Reg.refOf (r : Reg) (name : String) : Nat := (Reg.lookup r name).getD 0

/-- Rebind a name's count, erasing every older binding. -/
def Reg.setRef (r : Reg) (name : String) (n : Nat) : Reg :=
  (name, n) :: r.filter (fun p => p.1 ≠ name)

/-- Remove a name entirely (`transports.delete` + `transportRefs.delete`). -/
def Reg.remove (r : Reg) (name : String) : Reg :=
  r.filter (fun p => p.1 ≠ name)

/-- Model of `getTransport`: create the transport with count zero on first use, then
increment the count and hand out the shared instance. -/
def Reg.acquire (r : Reg) (name : String) : Reg :=
  match Reg.lookup r name with
  | none => (name, 1) :: r
  | some n => Reg.setRef r name (n + 1)

/-- Model of `releaseTransport`: read the count (zero when absent); at one or less,
destroy the cached transport if present and evict both entries; otherwise
decrement.  The returned flag records whether a transport was destroyed. -/
def Reg.release (r : Reg) (name : String) : Reg × Bool :=
  let refs := Reg.refOf r name
  if refs ≤ 1 then (Reg.remove r name, (Reg.lookup r name).isSome)
  else (Reg.setRef r name (refs - 1), false)

/-! ## Channel -/

/-- The state of a `CrossTabChannel`: configuration, current in-memory
value, the subscriber set (callback identifiers in insertion order,
without duplicates, matching a JS `Set`), and whether the internal
transport listener is still registered (`_unsubscribe` not yet called). -/
structure Channel (α : Type) where
  key : String
  channelName : String
  persist : Bool
  value : α
  subscribers : List Nat
  attached : Bool
deriving DecidableEq, Repr

/-- The per-key persistence slot name. -/
def Channel.storageKey (ch : Channel α) : String := "xts-" ++ ch.key

/-- The physical channel slot name used by the fallback transport. -/
def Channel.physKey (ch : Channel α) : String := "xts-" ++ ch.channelName

/-- Model of `getValue`: the current in-memory value, no side effects. -/
def getValue (ch : Channel α) : α := ch.value

/-- Model of `subscribers.forEach(fn => { try { fn(v) } catch { } })`: invoke every
callback in order with the value; a throwing callback is caught and the
iteration continues.  Returns the trace of performed invocations. -/
def notifyAll (cb : Nat → α → Except Unit Unit) (v : α) :
    List Nat → List (Nat × α)
  | [] => []
  | i :: rest =>
    match cb i v with
    | .ok _ => (i, v) :: notifyAll cb v rest
    | .error _ => (i, v) :: notifyAll cb v rest

/-- The guarded persistence write shared by `setValue` and the transport
listener: when persistence is enabled and a browser context is present,
serialize the value and, if the result is truthy and not the literal
string `undefined`, write the per-key slot; a serialize or `setItem`
throw is caught, leaving the store unchanged. -/
def persistStep (persist isBrowser : Bool) (f : Faults) (ser : α → String)
    (storageKey : String) (st : Store α) (v : α) : Store α :=
  if persist ∧ isBrowser then
    tryCatch (do
      let s ← serializeE f.serializeThrows ser v
      if s ≠ "" ∧ s ≠ "undefined" then
        setItemE (!f.persistSetThrows) st storageKey (.raw s)
      else
        pure st) st
  else st

/-- Model of `setValue`: a no-op on `undefined`; otherwise update the in-memory
value, run the guarded persistence write, publish the envelope
`{value, key, tabId: getTabId(), timestamp: Date.now()}` through the
transport, and notify the local subscribers.  Returns the updated channel,
the updated store, the notification trace and the published envelope. -/
def setValue (ch : Channel α) (ser : α → String) (strat : Strategy)
    (isBrowser : Bool) (localId : String) (now : Nat) (f : Faults)
    (cb : Nat → α → Except Unit Unit) (st : Store α) (v : Option α) :
    Except Unit (Channel α × Store α × List (Nat × α) × Option (Envelope α)) :=
  match v with
  | none => .ok (ch, st, [], none)
  | some v =>
    let ch1 := { ch with value := v }
    let st1 := persistStep ch1.persist isBrowser f ser ch1.storageKey st v
    let env : Envelope α := ⟨some v, some ch1.key, some localId, now⟩
    let st2 := publishStore strat isBrowser ch1.physKey f st1 env
    .ok (ch1, st2, notifyAll cb v ch1.subscribers, some env)

/-- The channel's internal transport listener: reject non-objects, foreign
keys and undefined values; otherwise adopt the value, re-run the guarded
persistence write, and notify the local subscribers. -/
def handleMessage (ch : Channel α) (ser : α → String) (isBrowser : Bool)
    (f : Faults) (cb : Nat → α → Except Unit Unit) (st : Store α) :
    JSMsg α → Except Unit (Channel α × Store α × List (Nat × α))
  | .nonObject => .ok (ch, st, [])
  | .obj e =>
    if e.key ≠ some ch.key then .ok (ch, st, [])
    else
      match e.value with
      | none => .ok (ch, st, [])
      | some v =>
        let ch1 := { ch with value := v }
        let st1 := persistStep ch1.persist isBrowser f ser ch1.storageKey st v
        .ok (ch1, st1, notifyAll cb v ch1.subscribers)

/-- The full inbound live path into one channel: the transport's filter
(`forwardGuard`) followed by the channel's internal listener, which is only
invoked while it is still registered. -/
def deliverRemote (ch : Channel α) (ser : α → String) (isBrowser : Bool)
    (localId : String) (f : Faults) (cb : Nat → α → Except Unit Unit)
    (st : Store α) (m : JSMsg α) :
    Except Unit (Channel α × Store α × List (Nat × α)) :=
  if ch.attached then
    match forwardGuard localId m with
    | some e => handleMessage ch ser isBrowser f cb st (.obj e)
    | none => .ok (ch, st, [])
  else .ok (ch, st, [])

/-- Model of `subscribe`: add the callback to the subscriber set (a JS `Set` keeps a
single copy), immediately invoke it once with the current value with a
throw caught and swallowed, and report that single invocation. -/
def subscribe (ch : Channel α) (cb : Nat → α → Except Unit Unit) (i : Nat) :
    Except Unit (Channel α × List (Nat × α)) :=
  let subs := if i ∈ ch.subscribers then ch.subscribers else ch.subscribers ++ [i]
  let _ := tryCatch (cb i ch.value) ()
  .ok ({ ch with subscribers := subs }, [(i, ch.value)])

/-- Model of `destroy`: unregister the internal transport listener, release the
transport reference, clear the local subscribers.  The returned flag
records whether the underlying transport was destroyed. -/
def destroy (ch : Channel α) (reg : Reg) :
    Except Unit (Channel α × Reg × Bool) :=
  let rel := Reg.release reg ch.channelName
  .ok ({ ch with attached := false, subscribers := [] }, rel.1, rel.2)

/-- JS `String.prototype.trim`: strip leading and trailing whitespace
(written over the character list so that it evaluates by kernel
reduction). -/
def jsTrim (s : String) : String :=
  String.mk (((s.data.dropWhile Char.isWhitespace).reverse.dropWhile
    Char.isWhitespace).reverse)

/-- Restore attempt at construction: a stored raw string that is truthy,
not the literal string `undefined` and not all-whitespace is deserialized;
a deserialization throw (`deser = none`) falls back to no restore. -/
def restoreValue (deser : String → Option α) (slot : Option (SlotVal α)) :
    Option α :=
  match slot with
  | some (.raw s) =>
    if s ≠ "" ∧ s ≠ "undefined" ∧ jsTrim s ≠ "" then deser s else none
  | _ => none

/-- Registering the internal listener with the shared transport: for the
fallback strategy in a browser context, `transport.subscribe` immediately
and synchronously reads the physical slot and, when it holds a well-formed
envelope with a defined `value`, invokes the listener with it. -/
def mkChannelAttach (ch0 : Channel α) (ser : α → String) (strat : Strategy)
    (isBrowser : Bool) (localId : String) (subFault : Bool) (f : Faults)
    (cb : Nat → α → Except Unit Unit) (st : Store α) (reg1 : Reg) :
    Except Unit (Channel α × Store α × Reg) :=
  match strat with
  | .fallback =>
    if isBrowser then
      match fallbackSubscribeRead localId st ch0.physKey subFault with
      | some e =>
        (handleMessage ch0 ser isBrowser f cb st (.obj e)).map
          (fun r => (r.1, r.2.1, reg1))
      | none => .ok (ch0, st, reg1)
    else .ok (ch0, st, reg1)
  | _ => .ok (ch0, st, reg1)

/-- The `CrossTabChannel` constructor: acquire the shared transport for the
channel name (default `xts`), optionally restore a persisted value from the
per-key slot (`restoreFault` models `getItem` throwing), and register the
internal listener with the transport (`mkChannelAttach`). -/
def mkChannel (key : String) (channelName : Option String) (persist : Bool)
    (initialValue : α) (ser : α → String) (deser : String → Option α)
    (strat : Strategy) (isBrowser : Bool) (localId : String)
    (restoreFault subFault : Bool) (f : Faults)
    (cb : Nat → α → Except Unit Unit) (st : Store α) (reg : Reg) :
    Except Unit (Channel α × Store α × Reg) :=
  let cname := channelName.getD "xts"
  let reg1 := Reg.acquire reg cname
  let v0 :=
    if persist ∧ isBrowser ∧ ¬ restoreFault then
      (restoreValue deser (Store.get st ("xts-" ++ key))).getD initialValue
    else initialValue
  let ch0 : Channel α := ⟨key, cname, persist, v0, [], true⟩
  mkChannelAttach ch0 ser strat isBrowser localId subFault f cb st reg1

/-! ## The default serialize/deserialize pair on string values

`JSON.stringify`/`JSON.parse` restricted to string payloads: a string is
quoted with backslash and double-quote escaped. -/

/-- Escape one character for a JSON string literal. -/
def jsonEscapeChar (c : Char) : String :=
  if c = '\\' then "\\\\"
  else if c = '"' then "\\\""
  else String.singleton c

/-- Model of `JSON.stringify` on a string value (folded over the character list so
that it evaluates by kernel reduction). -/
def jsonStringify (s : String) : String :=
  "\"" ++ (s.data.foldl (fun acc c => acc ++ jsonEscapeChar c) "") ++ "\""

/-- Unescape the body of a JSON string literal. -/
def jsonUnescape : List Char → Option (List Char)
  | [] => some []
  | '\\' :: c :: rest =>
    if c = '\\' ∨ c = '"' then (jsonUnescape rest).map (c :: ·) else none
  | '\\' :: [] => none
  | '"' :: _ => none
  | c :: rest => (jsonUnescape rest).map (c :: ·)

/-- Model of `JSON.parse` on a string literal; `none` models a parse throw or a
non-string parse result. -/
def jsonParseStr (s : String) : Option String :=
  match s.data with
  | '"' :: rest =>
    if rest.getLast? = some '"' then (jsonUnescape rest.dropLast).map List.asString
    else none
  | _ => none

/-! ## General lemmas -/

theorem notifyAll_eq_map (cb : Nat → α → Except Unit Unit) (v : α)
    (l : List Nat) : notifyAll cb v l = l.map (fun i => (i, v)) := by
  induction l with
  | nil => rfl
  | cons i rest ih => cases h : cb i v <;> simp [notifyAll, h, ih]

theorem append_ne_of_ne (p : String) {a b : String} (h : a ≠ b) :
    p ++ a ≠ p ++ b := by
  intro hc
  apply h
  have hd := congrArg String.data hc
  simp [String.data_append] at hd
  exact String.ext hd

theorem count_pair_map [DecidableEq α] (v : α) (i : Nat) (l : List Nat) :
    (l.map (fun j => (j, v))).count (i, v) = l.count i := by
  induction l with
  | nil => rfl
  | cons j rest ih =>
    simp only [List.map_cons, List.count_cons, ih]
    congr 1
    simp [Prod.ext_iff]

theorem Reg.lookup_remove_self (r : Reg) (name : String) :
    Reg.lookup (Reg.remove r name) name = none := by
  unfold Reg.remove
  induction r with
  | nil => rfl
  | cons p rest ih =>
    by_cases h : p.1 = name
    · simp only [List.filter_cons, h]
      simpa using ih
    · simp only [List.filter_cons]
      rw [if_pos (by simpa using h)]
      simpa [Reg.lookup, h] using ih

theorem Reg.lookup_setRef_self (r : Reg) (name : String) (n : Nat) :
    Reg.lookup (Reg.setRef r name n) name = some n := by
  simp [Reg.setRef, Reg.lookup]

theorem Reg.refOf_setRef_self (r : Reg) (name : String) (n : Nat) :
    Reg.refOf (Reg.setRef r name n) name = n := by
  simp [Reg.refOf, Reg.lookup_setRef_self]

theorem Reg.refOf_remove_self (r : Reg) (name : String) :
    Reg.refOf (Reg.remove r name) name = 0 := by
  simp [Reg.refOf, Reg.lookup_remove_self]

/-! ## Claims

Each claim of the specification is settled by one theorem below (plus a
closed counterexample where the claim fails as stated, and a closed witness
instantiating every theorem that carries hypotheses). -/

/-- C1 (amended): self-suppression holds on the live delivery paths —
the native broadcast `onmessage` handler and the fallback storage-event
handler never forward a message whose `tabId` equals the local identity to
the local listeners.  (The claim as stated also covered the fallback
strategy's subscribe-time immediate synchronous read, which performs no
identity check; see `C1_fallback_immediate_read_forwards_self`.) -/
theorem C1_live_paths_self_suppression (localId : String) (e : Envelope α)
    (physKey evKey : String) (fault : Bool) (h : e.tabId = some localId) :
    forwardGuard localId (JSMsg.obj e) = none
    ∧ storageEventDeliver localId physKey evKey (some (.envText e)) fault
        = none := by
  refine ⟨by simp [forwardGuard, h], ?_⟩
  unfold storageEventDeliver
  split
  · rfl
  · cases fault <;> simp [jsonParseMsg, h]

/-- Witness for `C1_live_paths_self_suppression` at a concrete input. -/
theorem C1_live_paths_self_suppression_witness :
    forwardGuard "me" (JSMsg.obj (⟨some "r", some "k", some "me", 7⟩ :
        Envelope String)) = none
    ∧ storageEventDeliver "me" "xts-xts" "xts-xts"
        (some (.envText (⟨some "r", some "k", some "me", 7⟩ :
          Envelope String))) false = none :=
  C1_live_paths_self_suppression "me" ⟨some "r", some "k", some "me", 7⟩
    "xts-xts" "xts-xts" false rfl

/-- C1 counterexample: the fallback strategy's immediate synchronous
read performed at subscribe time forwards a stored envelope whose `tabId`
equals the local identity (`"me"`) to the newly added listener, so the
claim's "never forwards ... on every delivery path" is false as stated. -/
theorem C1_fallback_immediate_read_forwards_self :
    fallbackSubscribeRead "me"
        ([("xts-xts", SlotVal.envText ⟨some "r", some "k", some "me", 7⟩)] :
          Store String)
        "xts-xts" false
      = some ⟨some "r", some "k", some "me", 7⟩
    ∧ (⟨some "r", some "k", some "me", 7⟩ : Envelope String).tabId
        = some "me" :=
  ⟨rfl, rfl⟩

/-- C2 (amended): with `persist: false`, `setValue`'s only durable
effect is the transport's own `publish`: the store returned by `setValue`
is exactly `publishStore` applied to the incoming store; `publishStore`
leaves every slot other than the physical channel slot unchanged; and
under the native broadcast and no-op strategies it leaves the whole store
unchanged.  (As stated, the claim also asserted that no slot at all is
written under the storage fallback strategy, which is false:
see `C2_fallback_publish_writes_slot`.) -/
theorem C2_no_persist_slot_write (ch : Channel α) (ser : α → String)
    (strat : Strategy) (isBrowser : Bool) (localId : String) (now : Nat)
    (f : Faults) (cb : Nat → α → Except Unit Unit) (st : Store α) (v : α)
    (h : ch.persist = false) :
    setValue ch ser strat isBrowser localId now f cb st (some v)
      = .ok ({ ch with value := v },
          publishStore strat isBrowser ch.physKey f st
            ⟨some v, some ch.key, some localId, now⟩,
          notifyAll cb v ch.subscribers,
          some ⟨some v, some ch.key, some localId, now⟩)
    ∧ (∀ (e : Envelope α) (slotName : String), slotName ≠ ch.physKey →
        Store.get (publishStore strat isBrowser ch.physKey f st e) slotName
          = Store.get st slotName)
    ∧ (strat = .broadcast ∨ strat = .noop →
        ∀ e : Envelope α, publishStore strat isBrowser ch.physKey f st e = st) := by
  refine ⟨?_, ?_, ?_⟩
  · simp [setValue, persistStep, Channel.storageKey, Channel.physKey, h]
  · intro e slotName hs
    cases strat with
    | noop => rfl
    | broadcast => cases hf : f.publishThrows <;> simp [publishStore, tryCatch, hf]
    | fallback =>
      cases isBrowser with
      | false => rfl
      | true =>
        cases hf : f.publishThrows <;>
          simp [publishStore, tryCatch, setItemE, hf, Store.get_set_ne _ _ _ _ (Ne.symm hs)]
  · rintro (rfl | rfl) e
    · cases hf : f.publishThrows <;> simp [publishStore, tryCatch, hf]
    · rfl

/-- Witness for `C2_no_persist_slot_write` at a concrete input. -/
theorem C2_no_persist_slot_write_witness :
    setValue (⟨"k", "xts", false, "a", [], true⟩ : Channel String)
        jsonStringify .fallback true "me" 5 {} (fun _ _ => .ok ()) []
        (some "b")
      = .ok ({ (⟨"k", "xts", false, "a", [], true⟩ : Channel String) with
            value := "b" },
          publishStore .fallback true
            (⟨"k", "xts", false, "a", [], true⟩ : Channel String).physKey {}
            [] ⟨some "b", some "k", some "me", 5⟩,
          notifyAll (fun _ _ => .ok ()) "b" [],
          some ⟨some "b", some "k", some "me", 5⟩)
    ∧ (∀ (e : Envelope String) (slotName : String),
        slotName ≠ (⟨"k", "xts", false, "a", [], true⟩ :
            Channel String).physKey →
        Store.get (publishStore .fallback true
            (⟨"k", "xts", false, "a", [], true⟩ : Channel String).physKey {}
            [] e) slotName
          = Store.get ([] : Store String) slotName)
    ∧ (Strategy.fallback = .broadcast ∨ Strategy.fallback = .noop →
        ∀ e : Envelope String,
          publishStore .fallback true
            (⟨"k", "xts", false, "a", [], true⟩ : Channel String).physKey {}
            [] e = []) :=
  C2_no_persist_slot_write ⟨"k", "xts", false, "a", [], true⟩ jsonStringify
    .fallback true "me" 5 {} (fun _ _ => .ok ()) [] "b" rfl

/-- C2 counterexample: with `persist: false` and the storage fallback
strategy, `setValue` does write a durable slot — the physical channel slot
`xts-xts` receives the published envelope. -/
theorem C2_fallback_publish_writes_slot :
    (setValue (⟨"k", "xts", false, "a", [], true⟩ : Channel String)
        jsonStringify .fallback true "me" 5 {} (fun _ _ => .ok ()) []
        (some "b")).map (fun r => Store.get r.2.1 "xts-xts")
      = .ok (some (.envText ⟨some "b", some "k", some "me", 5⟩)) := rfl

/-- C4: the registry's count increments on each acquire; on a release
with count at least two the count decrements and no transport is
destroyed; on a release with count exactly one the transport is destroyed
and evicted (count drops to zero); and a destroy only ever happens on a
release whose starting count is at most one — never while the count is
greater than one.  Under the discipline that every acquire is paired with
exactly one release, a release only ever runs at a positive count, so the
transport is destroyed exactly when the count would drop to zero. -/
theorem C4_refcount_lifecycle (r : Reg) (name : String) :
    Reg.refOf (Reg.acquire r name) name = Reg.refOf r name + 1
    ∧ (2 ≤ Reg.refOf r name →
        (Reg.release r name).2 = false
        ∧ Reg.refOf (Reg.release r name).1 name = Reg.refOf r name - 1)
    ∧ (Reg.refOf r name = 1 →
        (Reg.release r name).2 = true
        ∧ Reg.refOf (Reg.release r name).1 name = 0)
    ∧ ((Reg.release r name).2 = true → Reg.refOf r name ≤ 1) := by
  refine ⟨?_, ?_, ?_, ?_⟩
  · unfold Reg.acquire
    cases hl : Reg.lookup r name with
    | none => simp [Reg.refOf, Reg.lookup, hl]
    | some n => simp [Reg.refOf, Reg.lookup_setRef_self, hl]
  · intro h2
    unfold Reg.release
    rw [if_neg (by omega)]
    exact ⟨rfl, Reg.refOf_setRef_self _ _ _⟩
  · intro h1
    unfold Reg.release
    rw [if_pos (by omega)]
    refine ⟨?_, Reg.refOf_remove_self _ _⟩
    cases hl : Reg.lookup r name with
    | none => simp [Reg.refOf, hl] at h1
    | some n => rfl
  · intro hd
    by_contra hgt
    unfold Reg.release at hd
    rw [if_neg (by omega)] at hd
    exact Bool.false_ne_true hd

/-- Witness for `C4_refcount_lifecycle` at concrete registries with counts
two and one. -/
theorem C4_refcount_lifecycle_witness :
    Reg.refOf (Reg.acquire ([("xts", 2)] : Reg) "xts") "xts" = 3
    ∧ (Reg.release ([("xts", 2)] : Reg) "xts").2 = false
    ∧ Reg.refOf (Reg.release ([("xts", 2)] : Reg) "xts").1 "xts" = 1
    ∧ (Reg.release ([("xts", 1)] : Reg) "xts").2 = true
    ∧ Reg.refOf (Reg.release ([("xts", 1)] : Reg) "xts").1 "xts" = 0 := by
  have h2 := C4_refcount_lifecycle [("xts", 2)] "xts"
  have h1 := C4_refcount_lifecycle [("xts", 1)] "xts"
  refine ⟨h2.1.trans (by decide), (h2.2.1 (by decide)).1,
    ((h2.2.1 (by decide)).2).trans (by decide), (h1.2.2.1 (by decide)).1,
    (h1.2.2.1 (by decide)).2⟩

/-- C9: `setValue(undefined)` is a complete no-op at the public
interface: the channel (hence `getValue`), the store (hence every
persistence slot) are unchanged, no subscriber is notified, and nothing is
published. -/
theorem C9_setValue_undefined_noop (ch : Channel α) (ser : α → String)
    (strat : Strategy) (isBrowser : Bool) (localId : String) (now : Nat)
    (f : Faults) (cb : Nat → α → Except Unit Unit) (st : Store α) :
    setValue ch ser strat isBrowser localId now f cb st none
      = .ok (ch, st, [], none) := rfl

/-- C3: for every defined value `v`, `setValue(v)` makes the resulting
`getValue()` return `v`, notifies every currently subscribed callback with
`v` exactly once (once per subscriber in the trace; with a duplicate-free
subscriber set each subscriber's count in the trace is one), publishes the
self-tagged envelope, and that envelope is rejected by the transport's own
echo filters (both the native `onmessage` guard and the storage-event
guard), so no second delivery can occur. -/
theorem C3_setValue_delivers_exactly_once [DecidableEq α] (ch : Channel α)
    (ser : α → String) (strat : Strategy) (isBrowser : Bool)
    (localId : String) (now : Nat) (f : Faults)
    (cb : Nat → α → Except Unit Unit) (st : Store α) (v : α)
    (ch' : Channel α) (st' : Store α) (tr : List (Nat × α))
    (pub : Option (Envelope α))
    (h : setValue ch ser strat isBrowser localId now f cb st (some v)
        = .ok (ch', st', tr, pub)) :
    getValue ch' = v
    ∧ tr = ch.subscribers.map (fun i => (i, v))
    ∧ (ch.subscribers.Nodup → ∀ i ∈ ch.subscribers, tr.count (i, v) = 1)
    ∧ pub = some ⟨some v, some ch.key, some localId, now⟩
    ∧ forwardGuard localId
        (JSMsg.obj ⟨some v, some ch.key, some localId, now⟩) = none
    ∧ storageEventDeliver localId ch.physKey ch.physKey
        (some (.envText ⟨some v, some ch.key, some localId, now⟩)) false
        = none := by
  simp only [setValue, Except.ok.injEq, Prod.mk.injEq] at h
  obtain ⟨hch, hst, htr, hpub⟩ := h
  subst hch hst htr hpub
  refine ⟨rfl, ?_, ?_, rfl, ?_, ?_⟩
  · exact notifyAll_eq_map cb v ch.subscribers
  · intro hnd i hi
    rw [notifyAll_eq_map cb v ch.subscribers, count_pair_map]
    exact List.count_eq_one_of_mem hnd hi
  · simp [forwardGuard]
  · unfold storageEventDeliver
    rw [if_neg (by simp)]
    simp [jsonParseMsg]

/-- Witness for `C3_setValue_delivers_exactly_once` at a concrete input:
a channel with two subscribers, value `7` set. -/
theorem C3_setValue_delivers_exactly_once_witness :
    getValue (⟨"k", "xts", false, 7, [1, 2], true⟩ : Channel Nat) = 7
    ∧ ([(1, 7), (2, 7)] : List (Nat × Nat))
        = (⟨"k", "xts", false, 0, [1, 2], true⟩ :
            Channel Nat).subscribers.map (fun i => (i, 7))
    ∧ ((⟨"k", "xts", false, 0, [1, 2], true⟩ :
          Channel Nat).subscribers.Nodup →
        ∀ i ∈ (⟨"k", "xts", false, 0, [1, 2], true⟩ :
            Channel Nat).subscribers,
          ([(1, 7), (2, 7)] : List (Nat × Nat)).count (i, 7) = 1)
    ∧ (some ⟨some 7, some "k", some "me", 3⟩ : Option (Envelope Nat))
        = some ⟨some 7, some "k", some "me", 3⟩
    ∧ forwardGuard "me"
        (JSMsg.obj (⟨some 7, some "k", some "me", 3⟩ : Envelope Nat)) = none
    ∧ storageEventDeliver "me"
        (⟨"k", "xts", false, 0, [1, 2], true⟩ : Channel Nat).physKey
        (⟨"k", "xts", false, 0, [1, 2], true⟩ : Channel Nat).physKey
        (some (.envText (⟨some 7, some "k", some "me", 3⟩ : Envelope Nat)))
        false = none :=
  C3_setValue_delivers_exactly_once ⟨"k", "xts", false, 0, [1, 2], true⟩
    (fun _ => "") .broadcast true "me" 3 {} (fun _ _ => .ok ()) [] 7
    ⟨"k", "xts", false, 7, [1, 2], true⟩ [] [(1, 7), (2, 7)]
    (some ⟨some 7, some "k", some "me", 3⟩) rfl

/-- C8: delivery of an inbound envelope whose `key` differs from the
channel's key leaves the channel (value included) and the store unchanged
and notifies none of the channel's subscribers. -/
theorem C8_key_isolation (ch : Channel α) (ser : α → String)
    (isBrowser : Bool) (localId : String) (f : Faults)
    (cb : Nat → α → Except Unit Unit) (st : Store α) (e : Envelope α)
    (h : e.key ≠ some ch.key) :
    deliverRemote ch ser isBrowser localId f cb st (.obj e)
      = .ok (ch, st, []) := by
  have hg : forwardGuard localId (JSMsg.obj e) = none
      ∨ forwardGuard localId (JSMsg.obj e) = some e := by
    unfold forwardGuard
    by_cases hcond : e.value.isSome ∧ e.tabId ≠ some localId
    · exact Or.inr (if_pos hcond)
    · exact Or.inl (if_neg hcond)
  unfold deliverRemote
  cases ha : ch.attached
  · simp
  · rcases hg with hg | hg <;> rw [hg] <;> simp [handleMessage, h]

theorem isOk_map {β γ : Type} (x : Except Unit β) (g : β → γ) :
    (x.map g).isOk = x.isOk := by
  cases x <;> rfl

theorem handleMessage_isOk (ch : Channel α) (ser : α → String)
    (isBrowser : Bool) (f : Faults) (cb : Nat → α → Except Unit Unit)
    (st : Store α) (m : JSMsg α) :
    (handleMessage ch ser isBrowser f cb st m).isOk = true := by
  cases m with
  | nonObject => rfl
  | obj e =>
    simp only [handleMessage]
    by_cases hk : e.key ≠ some ch.key
    · rw [if_pos hk]
      rfl
    · rw [if_neg hk]
      cases hv : e.value <;> rfl

theorem deliverRemote_isOk (ch : Channel α) (ser : α → String)
    (isBrowser : Bool) (localId : String) (f : Faults)
    (cb : Nat → α → Except Unit Unit) (st : Store α) (m : JSMsg α) :
    (deliverRemote ch ser isBrowser localId f cb st m).isOk = true := by
  unfold deliverRemote
  cases ha : ch.attached
  · rw [if_neg Bool.false_ne_true]
    rfl
  · rw [if_pos rfl]
    cases hg : forwardGuard localId m with
    | none => rfl
    | some e => exact handleMessage_isOk _ _ _ _ _ _ _

theorem mkChannelAttach_isOk (ch0 : Channel α) (ser : α → String)
    (strat : Strategy) (isBrowser : Bool) (localId : String)
    (subFault : Bool) (f : Faults) (cb : Nat → α → Except Unit Unit)
    (st : Store α) (reg1 : Reg) :
    (mkChannelAttach ch0 ser strat isBrowser localId subFault f cb st
      reg1).isOk = true := by
  cases strat with
  | noop => rfl
  | broadcast => rfl
  | fallback =>
    cases isBrowser with
    | false => rfl
    | true =>
      simp only [mkChannelAttach]
      rw [if_pos trivial]
      cases hr : fallbackSubscribeRead localId st ch0.physKey subFault with
      | none => rfl
      | some e =>
        rw [isOk_map]
        exact handleMessage_isOk _ _ _ _ _ _ _

theorem mkChannel_isOk (key : String) (channelName : Option String)
    (persist : Bool) (initialValue : α) (ser : α → String)
    (deser : String → Option α) (strat : Strategy) (isBrowser : Bool)
    (localId : String) (restoreFault subFault : Bool) (f : Faults)
    (cb : Nat → α → Except Unit Unit) (st : Store α) (reg : Reg) :
    (mkChannel key channelName persist initialValue ser deser strat
      isBrowser localId restoreFault subFault f cb st reg).isOk = true :=
  mkChannelAttach_isOk _ _ _ _ _ _ _ _ _ _


/-- C5: no core operation raises an error to its caller, for every
fault configuration of the platform primitives (storage reads and writes
that throw, a throwing native broadcast send, failing deserialization) and
every subscriber-callback behaviour: Channel construction, `setValue`,
`subscribe`, `destroy`, the transport listener and the full inbound
delivery path all return normally; every subscriber is invoked exactly
once per dispatch even when other subscribers throw; and with every
fallible primitive throwing, the transport publish and the persistence
write degrade to leaving the store untouched. -/
theorem C5_never_throws (key : String) (channelName : Option String)
    (persist : Bool) (init : α) (ser : α → String)
    (deser : String → Option α) (strat : Strategy) (isBrowser : Bool)
    (localId : String) (now : Nat) (restoreFault subFault : Bool)
    (f : Faults) (cb : Nat → α → Except Unit Unit) (st : Store α)
    (reg : Reg) (ch : Channel α) (v : Option α) (w : α) (i : Nat)
    (m : JSMsg α) (e : Envelope α) (pk sk : String) (ps : Bool) :
    (mkChannel key channelName persist init ser deser strat isBrowser
        localId restoreFault subFault f cb st reg).isOk = true
    ∧ (setValue ch ser strat isBrowser localId now f cb st v).isOk = true
    ∧ (subscribe ch cb i).isOk = true
    ∧ (destroy ch reg).isOk = true
    ∧ (handleMessage ch ser isBrowser f cb st m).isOk = true
    ∧ (deliverRemote ch ser isBrowser localId f cb st m).isOk = true
    ∧ notifyAll cb w ch.subscribers = ch.subscribers.map (fun j => (j, w))
    ∧ publishStore strat isBrowser pk ⟨true, true, true⟩ st e = st
    ∧ persistStep ps isBrowser ⟨true, true, true⟩ ser sk st w = st := by
  refine ⟨mkChannel_isOk _ _ _ _ _ _ _ _ _ _ _ _ _ _ _, ?_, rfl, rfl,
    handleMessage_isOk _ _ _ _ _ _ _, deliverRemote_isOk _ _ _ _ _ _ _ _,
    notifyAll_eq_map cb w ch.subscribers, ?_, ?_⟩
  · cases v <;> rfl
  · cases strat with
    | noop => rfl
    | broadcast => rfl
    | fallback => cases isBrowser <;> rfl
  · unfold persistStep
    by_cases hb : ps ∧ isBrowser = true
    · rw [if_pos hb]
      rfl
    · rw [if_neg hb]

/-- Witness for `C8_key_isolation` at a concrete input. -/
theorem C8_key_isolation_witness :
    deliverRemote (⟨"a", "xts", false, "u", [3], true⟩ : Channel String)
        jsonStringify true "me" {} (fun _ _ => .ok ()) []
        (.obj ⟨some "w", some "b", some "other", 1⟩)
      = .ok (⟨"a", "xts", false, "u", [3], true⟩, [], []) :=
  C8_key_isolation ⟨"a", "xts", false, "u", [3], true⟩ jsonStringify true
    "me" {} (fun _ _ => .ok ()) [] ⟨some "w", some "b", some "other", 1⟩
    (by decide)

/-- C7: after `destroy()`, the subscriber set is empty, so a subsequent
`setValue` produces an empty notification trace — no subscriber that was
registered before the destroy is ever notified — and calling `destroy()`
again on the already-destroyed channel returns normally (the second
release finds no cached transport and simply evicts nothing). -/
theorem C7_destroy_halts_and_idempotent (ch : Channel α) (reg : Reg)
    (ser : α → String) (strat : Strategy) (isBrowser : Bool)
    (localId : String) (now : Nat) (f : Faults)
    (cb : Nat → α → Except Unit Unit) (st : Store α) (v : α)
    (ch1 : Channel α) (reg1 : Reg) (d : Bool)
    (h : destroy ch reg = .ok (ch1, reg1, d)) :
    ch1.subscribers = []
    ∧ (∀ (ch2 : Channel α) (st2 : Store α) (tr : List (Nat × α))
        (pub : Option (Envelope α)),
        setValue ch1 ser strat isBrowser localId now f cb st (some v)
          = .ok (ch2, st2, tr, pub) → tr = [])
    ∧ (destroy ch1 reg1).isOk = true := by
  simp only [destroy, Except.ok.injEq, Prod.mk.injEq] at h
  obtain ⟨hch, hreg, hd⟩ := h
  subst hch
  refine ⟨rfl, ?_, rfl⟩
  intro ch2 st2 tr pub hsv
  simp only [setValue, Except.ok.injEq, Prod.mk.injEq] at hsv
  obtain ⟨hch2, hst2, htr, hpub⟩ := hsv
  rw [← htr]
  rfl

/-- Witness for `C7_destroy_halts_and_idempotent` at a concrete input. -/
theorem C7_destroy_halts_and_idempotent_witness :
    ((⟨"k", "xts", false, "a", [], false⟩ : Channel String).subscribers = [])
    ∧ (∀ (ch2 : Channel String) (st2 : Store String)
        (tr : List (Nat × String)) (pub : Option (Envelope String)),
        setValue (⟨"k", "xts", false, "a", [], false⟩ : Channel String)
            jsonStringify .broadcast true "me" 9 {} (fun _ _ => .ok ()) []
            (some "b")
          = .ok (ch2, st2, tr, pub) → tr = [])
    ∧ (destroy (⟨"k", "xts", false, "a", [], false⟩ : Channel String)
        ([] : Reg)).isOk = true :=
  C7_destroy_halts_and_idempotent ⟨"k", "xts", false, "a", [5], true⟩
    [("xts", 1)] jsonStringify .broadcast true "me" 9 {} (fun _ _ => .ok ())
    [] "b" ⟨"k", "xts", false, "a", [], false⟩ [] true rfl

/-- C10 (amended): with persistence enabled, when `serialize` returns the
empty string for a value, accepting that value — through `setValue` or
through a well-formed remote envelope — still updates the in-memory value,
but the guarded persistence write is skipped entirely (the guard rejects
every falsy serialization, not only the literal string `undefined`):
`setValue`'s store effect is exactly the transport publish, the
remote-accept path leaves the store untouched, and the per-key persistence
slot keeps its previous content provided it is distinct from the physical
channel slot (`key ≠ channelName`).  (Without that proviso the claim's
"keeps its previous content" is false as stated: under the fallback
strategy with `key = channelName`, the publish overwrites the shared slot —
see `C10_collision_slot_overwritten`.) -/
theorem C10_empty_serialization_guard (ch : Channel α) (ser : α → String)
    (strat : Strategy) (localId tid : String) (now ts : Nat) (f : Faults)
    (cb : Nat → α → Except Unit Unit) (st : Store α) (v : α)
    (hs : ser v = "") (hf : f.serializeThrows = false) :
    setValue ch ser strat true localId now f cb st (some v)
      = .ok ({ ch with value := v },
          publishStore strat true ch.physKey f st
            ⟨some v, some ch.key, some localId, now⟩,
          notifyAll cb v ch.subscribers,
          some ⟨some v, some ch.key, some localId, now⟩)
    ∧ handleMessage ch ser true f cb st
        (.obj ⟨some v, some ch.key, some tid, ts⟩)
        = .ok ({ ch with value := v }, st, notifyAll cb v ch.subscribers)
    ∧ (ch.key ≠ ch.channelName →
        Store.get (publishStore strat true ch.physKey f st
            ⟨some v, some ch.key, some localId, now⟩) ch.storageKey
          = Store.get st ch.storageKey) := by
  have hps : ∀ st' : Store α,
      persistStep ch.persist true f ser ("xts-" ++ ch.key) st' v = st' := by
    intro st'
    unfold persistStep
    by_cases hb : ch.persist = true ∧ true = true
    · rw [if_pos hb]
      simp only [serializeE, hf, hs, Bool.false_eq_true, if_false]
      rfl
    · rw [if_neg hb]
  refine ⟨?_, ?_, ?_⟩
  · simp only [setValue, Channel.storageKey, Channel.physKey]
    rw [hps st]
  · simp only [handleMessage]
    rw [if_neg (by simp)]
    simp only [Channel.storageKey]
    rw [hps st]
  · intro hne
    have hk : ("xts-" ++ ch.channelName) ≠ ("xts-" ++ ch.key) :=
      append_ne_of_ne "xts-" (Ne.symm hne)
    cases strat with
    | noop => rfl
    | broadcast =>
      cases hp : f.publishThrows <;> simp [publishStore, tryCatch, hp]
    | fallback =>
      cases hp : f.publishThrows <;>
        simp [publishStore, tryCatch, setItemE, hp, Channel.physKey,
          Channel.storageKey, Store.get_set_ne _ _ _ _ hk]

/-- Witness for `C10_empty_serialization_guard` at a concrete input: a
persisting channel whose serializer returns the empty string. -/
theorem C10_empty_serialization_guard_witness :
    setValue (⟨"k", "xts", true, "a", [4], true⟩ : Channel String)
        (fun _ => "") .broadcast true "me" 2 {} (fun _ _ => .ok ())
        [("xts-k", .raw "old")] (some "b")
      = .ok ({ (⟨"k", "xts", true, "a", [4], true⟩ : Channel String) with
            value := "b" },
          publishStore .broadcast true
            (⟨"k", "xts", true, "a", [4], true⟩ : Channel String).physKey {}
            [("xts-k", .raw "old")] ⟨some "b", some "k", some "me", 2⟩,
          notifyAll (fun _ _ => .ok ()) "b" [4],
          some ⟨some "b", some "k", some "me", 2⟩)
    ∧ handleMessage (⟨"k", "xts", true, "a", [4], true⟩ : Channel String)
        (fun _ => "") true {} (fun _ _ => .ok ()) [("xts-k", .raw "old")]
        (.obj ⟨some "b", some "k", some "other", 3⟩)
        = .ok ({ (⟨"k", "xts", true, "a", [4], true⟩ : Channel String) with
            value := "b" }, [("xts-k", .raw "old")],
          notifyAll (fun _ _ => .ok ()) "b" [4])
    ∧ ((⟨"k", "xts", true, "a", [4], true⟩ : Channel String).key
        ≠ (⟨"k", "xts", true, "a", [4], true⟩ : Channel String).channelName →
        Store.get (publishStore .broadcast true
            (⟨"k", "xts", true, "a", [4], true⟩ : Channel String).physKey {}
            [("xts-k", .raw "old")] ⟨some "b", some "k", some "me", 2⟩)
          (⟨"k", "xts", true, "a", [4], true⟩ : Channel String).storageKey
          = Store.get [("xts-k", .raw "old")]
            (⟨"k", "xts", true, "a", [4], true⟩ :
              Channel String).storageKey) :=
  C10_empty_serialization_guard ⟨"k", "xts", true, "a", [4], true⟩
    (fun _ => "") .broadcast "me" "other" 2 3 {} (fun _ _ => .ok ())
    [("xts-k", .raw "old")] "b" rfl rfl

/-- C10 counterexample: when the logical key equals the physical channel
name (`"xts"`, the default) under the storage fallback strategy, the
per-key persistence slot and the transport's physical slot are the same
`localStorage` slot `xts-xts`.  With a serializer returning the empty
string the guarded persistence write is indeed skipped, but `setValue`'s
own publish overwrites that slot with the envelope JSON, so the per-key
slot does not keep its previous content (`"old"`) — the claim's
unconditional "keeps its previous content" is false as stated. -/
theorem C10_collision_slot_overwritten :
    (setValue (⟨"xts", "xts", true, "a", [], true⟩ : Channel String)
        (fun _ => "") .fallback true "me" 5 {} (fun _ _ => .ok ())
        [("xts-xts", SlotVal.raw "old")] (some "b")).map
        (fun r => Store.get r.2.1 "xts-xts")
      = .ok (some (.envText ⟨some "b", some "xts", some "me", 5⟩)) := rfl

/-- Helper for C6: a fresh persisting channel constructed over a store
whose per-key slot holds the serialized string `"x"` — and, under the
fallback strategy, whose physical slot holds an envelope carrying `"x"`
for this key (which is exactly what `setValue` leaves behind) — adopts
`"x"` whatever its `initialValue`. -/
theorem mkChannel_restores (key cname init localId2 : String)
    (subFault : Bool) (f2 : Faults) (cb2 : Nat → String → Except Unit Unit)
    (st1 : Store String) (reg : Reg) (strat : Strategy) (tid0 : Option String)
    (ts0 : Nat)
    (hslot : Store.get st1 ("xts-" ++ key) = some (.raw "\"x\""))
    (hphys : strat = .fallback →
      Store.get st1 ("xts-" ++ cname)
        = some (.envText ⟨some "x", some key, tid0, ts0⟩)) :
    ∀ (ch2 : Channel String) (st2 : Store String) (reg2 : Reg),
      mkChannel key (some cname) true init jsonStringify jsonParseStr strat
          true localId2 false subFault f2 cb2 st1 reg
        = .ok (ch2, st2, reg2) → ch2.value = "x" := by
  intro ch2 st2 reg2 hmk
  have hv0 : (restoreValue jsonParseStr
      (Store.get st1 ("xts-" ++ key))).getD init = "x" := by
    rw [hslot]
    rfl
  have h1 : mkChannel key (some cname) true init jsonStringify jsonParseStr
      strat true localId2 false subFault f2 cb2 st1 reg
      = mkChannelAttach
          ⟨key, cname, true,
            (restoreValue jsonParseStr (Store.get st1 ("xts-" ++ key))).getD
              init, [], true⟩
          jsonStringify strat true localId2 subFault f2 cb2 st1
          (Reg.acquire reg cname) := rfl
  rw [h1, hv0] at hmk
  cases strat with
  | noop =>
    rw [show mkChannelAttach
        (⟨key, cname, true, "x", [], true⟩ : Channel String) jsonStringify
        .noop true localId2 subFault f2 cb2 st1 (Reg.acquire reg cname)
        = .ok (⟨key, cname, true, "x", [], true⟩, st1, Reg.acquire reg cname)
      from rfl] at hmk
    cases hmk
    rfl
  | broadcast =>
    rw [show mkChannelAttach
        (⟨key, cname, true, "x", [], true⟩ : Channel String) jsonStringify
        .broadcast true localId2 subFault f2 cb2 st1 (Reg.acquire reg cname)
        = .ok (⟨key, cname, true, "x", [], true⟩, st1, Reg.acquire reg cname)
      from rfl] at hmk
    cases hmk
    rfl
  | fallback =>
    cases subFault with
    | true =>
      rw [show mkChannelAttach
          (⟨key, cname, true, "x", [], true⟩ : Channel String) jsonStringify
          .fallback true localId2 true f2 cb2 st1 (Reg.acquire reg cname)
          = .ok (⟨key, cname, true, "x", [], true⟩, st1,
              Reg.acquire reg cname)
        from rfl] at hmk
      cases hmk
      rfl
    | false =>
      have hread : fallbackSubscribeRead localId2 st1
          (Channel.physKey (⟨key, cname, true, "x", [], true⟩ : Channel String))
          false
          = some ⟨some "x", some key, tid0, ts0⟩ := by
        unfold fallbackSubscribeRead
        rw [if_neg (by simp)]
        rw [show Channel.physKey
          (⟨key, cname, true, "x", [], true⟩ : Channel String)
          = "xts-" ++ cname from rfl]
        rw [hphys rfl]
        rfl
      have hhm : handleMessage
          (⟨key, cname, true, "x", [], true⟩ : Channel String) jsonStringify
          true f2 cb2 st1 (.obj ⟨some "x", some key, tid0, ts0⟩)
          = .ok (⟨key, cname, true, "x", [], true⟩,
              persistStep true true f2 jsonStringify ("xts-" ++ key) st1 "x",
              []) := by
        simp only [handleMessage]
        rw [if_neg (by simp)]
        rfl
      have hfull : mkChannelAttach
          (⟨key, cname, true, "x", [], true⟩ : Channel String) jsonStringify
          .fallback true localId2 false f2 cb2 st1 (Reg.acquire reg cname)
          = (handleMessage (⟨key, cname, true, "x", [], true⟩ : Channel String)
              jsonStringify true f2 cb2 st1
              (.obj ⟨some "x", some key, tid0, ts0⟩)).map
              (fun r => (r.1, r.2.1, Reg.acquire reg cname)) := by
        simp only [mkChannelAttach]
        rw [if_pos trivial, hread]
      rw [hfull, hhm] at hmk
      simp only [Except.map] at hmk
      cases hmk
      rfl

/-- C6 (amended): with `persist: true`, the default serialize/
deserialize pair, and a logical key distinct from the physical channel
name (so the per-key persistence slot `xts-<key>` is distinct from the
fallback transport's physical slot `xts-<channelName>`), after
`setValue("x")` the per-key durable slot contains the serialized form
`"\"x\""` of `"x"`, and a fresh Channel constructed for the same key with
`persist: true` over the resulting storage adopts `"x"` whatever its
`initialValue` argument.  (Without the distinctness proviso the claim is
false as stated: see `C6_collision_slot_not_serialized_form`.) -/
theorem C6_persist_roundtrip (ch : Channel String) (strat : Strategy)
    (localId localId2 init : String) (now : Nat)
    (cb cb2 : Nat → String → Except Unit Unit) (st : Store String)
    (f2 : Faults) (subFault : Bool) (reg : Reg)
    (ch1 : Channel String) (st1 : Store String) (tr : List (Nat × String))
    (pub : Option (Envelope String))
    (hp : ch.persist = true) (hne : ch.key ≠ ch.channelName)
    (h : setValue ch jsonStringify strat true localId now {} cb st (some "x")
        = .ok (ch1, st1, tr, pub)) :
    Store.get st1 ("xts-" ++ ch.key) = some (.raw "\"x\"")
    ∧ ∀ (ch2 : Channel String) (st2 : Store String) (reg2 : Reg),
        mkChannel ch.key (some ch.channelName) true init jsonStringify
            jsonParseStr strat true localId2 false subFault f2 cb2 st1 reg
          = .ok (ch2, st2, reg2) → ch2.value = "x" := by
  have hkne : ("xts-" ++ ch.channelName) ≠ ("xts-" ++ ch.key) :=
    append_ne_of_ne "xts-" (Ne.symm hne)
  have hst1 : st1 = publishStore strat true ("xts-" ++ ch.channelName)
      ({} : Faults) (Store.set st ("xts-" ++ ch.key) (.raw "\"x\""))
      ⟨some "x", some ch.key, some localId, now⟩ := by
    simp only [setValue, Channel.storageKey, Channel.physKey,
      Except.ok.injEq, Prod.mk.injEq] at h
    have h2 := h.2.1
    rw [hp] at h2
    rw [show persistStep true true ({} : Faults) jsonStringify
        ("xts-" ++ ch.key) st "x"
        = Store.set st ("xts-" ++ ch.key) (.raw "\"x\"") from rfl] at h2
    exact h2.symm
  have hslot : Store.get st1 ("xts-" ++ ch.key) = some (.raw "\"x\"") := by
    rw [hst1]
    cases strat with
    | noop => exact Store.get_set_self _ _ _
    | broadcast => exact Store.get_set_self _ _ _
    | fallback =>
      rw [show publishStore .fallback true ("xts-" ++ ch.channelName)
          ({} : Faults) (Store.set st ("xts-" ++ ch.key) (.raw "\"x\""))
          ⟨some "x", some ch.key, some localId, now⟩
          = Store.set (Store.set st ("xts-" ++ ch.key) (.raw "\"x\""))
            ("xts-" ++ ch.channelName)
            (.envText ⟨some "x", some ch.key, some localId, now⟩) from rfl]
      rw [Store.get_set_ne _ _ _ _ hkne]
      exact Store.get_set_self _ _ _
  refine ⟨hslot, ?_⟩
  cases strat with
  | noop =>
    exact mkChannel_restores ch.key ch.channelName init localId2 subFault f2
      cb2 st1 reg .noop none 0 hslot (fun hh => nomatch hh)
  | broadcast =>
    exact mkChannel_restores ch.key ch.channelName init localId2 subFault f2
      cb2 st1 reg .broadcast none 0 hslot (fun hh => nomatch hh)
  | fallback =>
    have hphys : Store.get st1 ("xts-" ++ ch.channelName)
        = some (.envText ⟨some "x", some ch.key, some localId, now⟩) := by
      rw [hst1]
      rw [show publishStore .fallback true ("xts-" ++ ch.channelName)
          ({} : Faults) (Store.set st ("xts-" ++ ch.key) (.raw "\"x\""))
          ⟨some "x", some ch.key, some localId, now⟩
          = Store.set (Store.set st ("xts-" ++ ch.key) (.raw "\"x\""))
            ("xts-" ++ ch.channelName)
            (.envText ⟨some "x", some ch.key, some localId, now⟩) from rfl]
      exact Store.get_set_self _ _ _
    exact mkChannel_restores ch.key ch.channelName init localId2 subFault f2
      cb2 st1 reg .fallback (some localId) now hslot (fun _ => hphys)

/-- Witness for `mkChannel_restores` at a concrete input (also exercising
`C6_persist_roundtrip`'s hypotheses): broadcast strategy, key `k`. -/
theorem C6_persist_roundtrip_witness :
    Store.get ([("xts-k", SlotVal.raw "\"x\"")] : Store String)
        ("xts-" ++ "k") = some (.raw "\"x\"")
    ∧ ∀ (ch2 : Channel String) (st2 : Store String) (reg2 : Reg),
        mkChannel "k" (some "xts") true "init" jsonStringify jsonParseStr
            .broadcast true "you" false false {} (fun _ _ => .ok ())
            [("xts-k", SlotVal.raw "\"x\"")] []
          = .ok (ch2, st2, reg2) → ch2.value = "x" :=
  C6_persist_roundtrip ⟨"k", "xts", true, "a", [], true⟩ .broadcast "me"
    "you" "init" 5 (fun _ _ => .ok ()) (fun _ _ => .ok ()) [] {} false []
    ⟨"k", "xts", true, "x", [], true⟩ [("xts-k", SlotVal.raw "\"x\"")] []
    (some ⟨some "x", some "k", some "me", 5⟩) rfl (by decide) rfl

/-- C6 counterexample: when the logical key equals the physical channel
name (`"xts"`, the default), the per-key persistence slot and the fallback
transport's physical slot are the same `localStorage` slot `xts-xts`, and
`setValue("x")`'s own publish overwrites the just-persisted serialized
string with the envelope JSON — so immediately after `setValue("x")` the
durable slot for the key does not contain the serialized form `"\"x\""`
of `"x"`. -/
theorem C6_collision_slot_not_serialized_form :
    (setValue (⟨"xts", "xts", true, "a", [], true⟩ : Channel String)
        jsonStringify .fallback true "me" 5 {} (fun _ _ => .ok ()) []
        (some "x")).map (fun r => Store.get r.2.1 "xts-xts")
      = .ok (some (.envText ⟨some "x", some "xts", some "me", 5⟩)) := rfl

end CrossTab
